import Mathlib

/-!
Verification of the user CRUD service in `main.go`.

The program is five Gin handlers over a GORM-backed `users` table.  We embed
the table as a list of records plus the auto-increment sequence, the GORM
calls (`First`, `Find`, `Create`, `Save`, `Delete`) as pure functions on that
state, and each handler as a function from state and request to an HTTP
status, a response body and the new state.

Modelling notes, each traceable to the source:
  - `ShouldBindJSON` decodes into whatever struct value it is given; fields
    absent from the JSON leave the struct's current field values in place.
    A body is `Option UserJSON`: `none` is an undecodable body, and each
    field of `UserJSON` is optional.
  - `db.First(&user, id)` receives the raw path string.  A numeric string
    (per `strconv.Atoi`, so optionally `+`/`-` signed) selects by primary
    key; GORM passes any other string through as a raw SQL condition, which
    can match rows (`id=1`, `1=1`) — we model the `term=term` fragment over
    the id column and integer literals — while a string that is no valid
    condition makes the query error, which every handler maps to its
    not-found branch.
  - `db.Create(&user)` lets a nonzero `ID` through as-is and substitutes the
    next sequence value for a zero `ID`; the insert errors on a duplicate
    primary key or a duplicate email (unique index on `email`).
  - `db.Save(&user)` with a zero primary key inserts, otherwise updates the
    row with that primary key — failing when the unique email index would be
    violated — and falls back to an insert when the update matches no row.
  - `db.Delete(&user)` removes the row with the user's primary key.
-/

/-- The `User` record of `main.go`: `ID` (Go `int`, auto-increment primary
key), `Name`, and `Email` (unique index, both `not null`). -/
structure User where
  id : Int
  name : String
  email : String
deriving DecidableEq, Repr

/-- The persistent state: the rows of the `users` table in storage order and
the value the auto-increment sequence will hand out next. -/
structure Store where
  users : List User
  nextId : Int
deriving DecidableEq, Repr

/-- A JSON request body as seen by `ShouldBindJSON`: every field of `User`
may be present or absent. -/
structure UserJSON where
  id : Option Int
  name : Option String
  email : Option String
deriving DecidableEq, Repr

/-- The response bodies the handlers produce: a single user, a user list, or
a `{"message": ...}` object (`ErrorResponse` and the delete confirmation). -/
inductive HResp where
  | user (u : User)
  | users (l : List User)
  | msg (m : String)
deriving DecidableEq, Repr

/-- Accumulate decimal digits; any non-digit character fails the parse. -/
def parseDigits : List Char → Nat → Option Nat
  | [], acc => some acc
  | c :: rest, acc =>
    if c.isDigit then parseDigits rest (acc * 10 + (c.toNat - 48)) else none

/-- Integer syntax of Go's `strconv.Atoi`: an optional `+` or `-` sign
followed by at least one decimal digit. -/
def parseIntChars : List Char → Option Int
  | [] => none
  | '-' :: rest =>
    if rest = [] then none else (parseDigits rest 0).map (fun n => -(n : Int))
  | '+' :: rest =>
    if rest = [] then none else (parseDigits rest 0).map (fun n => (n : Int))
  | l => (parseDigits l 0).map (fun n => (n : Int))

/-- The numeric reading of the `id` path parameter: GORM treats the string
argument of `db.First(&user, id)` as a primary-key value exactly when
`strconv.Atoi` accepts it. -/
def parseId (s : String) : Option Int :=
  parseIntChars s.data

/-- `db.First(&user, i)` by primary key: the first row whose id equals `i`. -/
def firstById (s : Store) (i : Int) : Option User :=
  s.users.find? (fun v => v.id == i)

/-- A term of the raw-SQL condition fragment we model: the `id` column or an
integer literal. -/
inductive SqlTerm where
  | idCol
  | lit (n : Int)
deriving DecidableEq, Repr

/-- Parse one term of a raw condition: `id` or an integer literal. -/
def parseTerm (l : List Char) : Option SqlTerm :=
  if l = ['i', 'd'] then some SqlTerm.idCol
  else (parseIntChars l).map (fun n => SqlTerm.lit n)

/-- Split a character list at its first `=`. -/
def splitEq : List Char → Option (List Char × List Char)
  | [] => none
  | '=' :: rest => some ([], rest)
  | c :: rest => (splitEq rest).map (fun p => (c :: p.1, p.2))

/-- Parse a raw SQL condition of the shape `term=term`. -/
def parseCond (l : List Char) : Option (SqlTerm × SqlTerm) :=
  (splitEq l).bind (fun p =>
    (parseTerm p.1).bind (fun t1 => (parseTerm p.2).map (fun t2 => (t1, t2))))

/-- Evaluate a condition term against a row. -/
def evalTerm (t : SqlTerm) (v : User) : Int :=
  match t with
  | SqlTerm.idCol => v.id
  | SqlTerm.lit n => n

/-- `db.First(&user, id)` with the raw path string.  A numeric string
(`strconv.Atoi` syntax) selects by primary key.  Any other string is passed
through by GORM as a raw SQL condition: we model the fragment `term=term`
over the `id` column and integer literals (enough for inputs such as `id=1`
or `1=1`), returning the first row satisfying the condition; a string that
is no such condition makes the query fail, which the handlers surface as
not-found. -/
def firstByParam (s : Store) (idStr : String) : Option User :=
  match parseId idStr with
  | some i => firstById s i
  | none =>
    match parseCond idStr.data with
    | some c => s.users.find? (fun v => evalTerm c.1 v == evalTerm c.2 v)
    | none => none

/-- `ShouldBindJSON` into a pre-populated struct: present fields overwrite,
absent fields keep the struct's values; `none` is an undecodable body. -/
def bindJSON (body : Option UserJSON) (u : User) : Option User :=
  body.map (fun j =>
    { id := j.id.getD u.id, name := j.name.getD u.name, email := j.email.getD u.email })

/-- The primary key the insert will use: GORM substitutes the sequence value
only for a zero `ID`. -/
def assignId (s : Store) (u : User) : User :=
  if u.id = 0 then { u with id := s.nextId } else u

/-- `db.Create(&user)`: insert, erroring on a duplicate primary key or a
duplicate email; a successful insert with a zero incoming `ID` advances the
sequence. -/
def gormCreate (s : Store) (u : User) : Except Unit (User × Store) :=
  if s.users.any (fun v => v.id == (assignId s u).id) then Except.error ()
  else if s.users.any (fun v => v.email == (assignId s u).email) then Except.error ()
  else Except.ok (assignId s u,
    { users := s.users ++ [assignId s u],
      nextId := if u.id = 0 then s.nextId + 1 else s.nextId })

/-- `db.Save(&user)`: a zero primary key inserts; with a nonzero key it runs
an update of the row with that primary key — overwriting it, failing when
another row already holds the email — and falls back to an insert when the
update matches no row. -/
def gormSave (s : Store) (u : User) : Except Unit (User × Store) :=
  if u.id = 0 then gormCreate s u
  else if s.users.any (fun v => v.id == u.id) then
    if s.users.any (fun v => v.id != u.id && v.email == u.email) then Except.error ()
    else Except.ok (u, { s with users := s.users.map (fun v => if v.id = u.id then u else v) })
  else gormCreate s u

/-- `db.Delete(&user)`: hard delete of the row with the user's primary key. -/
def gormDelete (s : Store) (u : User) : Store :=
  { s with users := s.users.filter (fun v => v.id != u.id) }

/-- `GET /api/v1/users` (`getUsers` in `main.go`): list every row. -/
def getUsers (s : Store) : Nat × HResp × Store :=
  (200, HResp.users s.users, s)

/-- `GET /api/v1/users/:id` (`getUser`): any `First` failure is 404. -/
def getUser (s : Store) (idStr : String) : Nat × HResp × Store :=
  match firstByParam s idStr with
  | none => (404, HResp.msg "User not found", s)
  | some u => (200, HResp.user u, s)

/-- `POST /api/v1/users` (`createUser`): bind into a zero `User`, then
insert; bind failure is 400, insert failure 500, success 201 with the
created record. -/
def createUser (s : Store) (body : Option UserJSON) : Nat × HResp × Store :=
  match bindJSON body { id := 0, name := "", email := "" } with
  | none => (400, HResp.msg "Invalid input", s)
  | some u =>
    match gormCreate s u with
    | Except.error _ => (500, HResp.msg "Failed to create user", s)
    | Except.ok (u', s') => (201, HResp.user u', s')

/-- `PUT /api/v1/users/:id` (`updateUser`): fetch (404 on failure), then bind
the body over the fetched record (400 on failure), then save (500 on
failure), answering 200 with the saved record. -/
def updateUser (s : Store) (idStr : String) (body : Option UserJSON) :
    Nat × HResp × Store :=
  match firstByParam s idStr with
  | none => (404, HResp.msg "User not found", s)
  | some u =>
    match bindJSON body u with
    | none => (400, HResp.msg "Invalid input", s)
    | some u' =>
      match gormSave s u' with
      | Except.error _ => (500, HResp.msg "Failed to update user", s)
      | Except.ok (u'', s') => (200, HResp.user u'', s')

/-- `DELETE /api/v1/users/:id` (`deleteUser`): fetch (404 on failure) then
delete, answering 200 with a confirmation message. -/
def deleteUser (s : Store) (idStr : String) : Nat × HResp × Store :=
  match firstByParam s idStr with
  | none => (404, HResp.msg "User not found", s)
  | some u => (200, HResp.msg "User deleted", gormDelete s u)

/-- The database right after `AutoMigrate` on a fresh instance: empty table,
sequence at 1. -/
def emptyStore : Store :=
  { users := [], nextId := 1 }

/-- A well-formed create/update body carrying exactly a name and an email. -/
def mkBody (n e : String) : Option UserJSON :=
  some { id := none, name := some n, email := some e }

/-- Issue one `POST /users` per `(name, email)` pair, left to right; `none`
as soon as any request does not answer 201 with a user body. -/
def createMany : Store → List (String × String) → Option (Store × List User)
  | s, [] => some (s, [])
  | s, (n, e) :: rest =>
    match createUser s (mkBody n e) with
    | (201, HResp.user u, s') => (createMany s' rest).map (fun p => (p.1, u :: p.2))
    | _ => none

/-! ### Basic facts about the embedded storage operations -/

theorem createUser_mkBody (s : Store) (n e : String) :
    createUser s (mkBody n e) =
      match gormCreate s { id := 0, name := n, email := e } with
      | Except.error _ => (500, HResp.msg "Failed to create user", s)
      | Except.ok (u', s') => (201, HResp.user u', s') := rfl

theorem gormCreate_ok (s : Store) (u w : User) (s' : Store)
    (h : gormCreate s u = Except.ok (w, s')) :
    w = assignId s u ∧ s'.users = s.users ++ [w] ∧
      (∀ v ∈ s.users, v.id ≠ w.id) ∧ (∀ v ∈ s.users, v.email ≠ w.email) ∧
      s'.nextId = (if u.id = 0 then s.nextId + 1 else s.nextId) := by
  unfold gormCreate at h
  split at h
  · simp at h
  split at h
  · simp at h
  rename_i h1 h2
  simp only [Except.ok.injEq, Prod.mk.injEq] at h
  obtain ⟨rfl, rfl⟩ := h
  refine ⟨rfl, rfl, ?_, ?_, rfl⟩
  · intro v hv hvq
    exact h1 (List.any_eq_true.mpr ⟨v, hv, by simp [hvq]⟩)
  · intro v hv hvq
    exact h2 (List.any_eq_true.mpr ⟨v, hv, by simp [hvq]⟩)

theorem createUser_created (s : Store) (n e : String) (u : User) (s' : Store)
    (h : createUser s (mkBody n e) = (201, HResp.user u, s')) :
    u = { id := s.nextId, name := n, email := e } ∧ s'.users = s.users ++ [u] ∧
      (∀ v ∈ s.users, v.id ≠ u.id) ∧ (∀ v ∈ s.users, v.email ≠ u.email) := by
  rw [createUser_mkBody] at h
  cases hc : gormCreate s { id := 0, name := n, email := e } with
  | error x => rw [hc] at h; simp at h
  | ok p =>
    rw [hc] at h
    obtain ⟨w, s₁⟩ := p
    simp only [Prod.mk.injEq, HResp.user.injEq] at h
    obtain ⟨-, rfl, rfl⟩ := h
    obtain ⟨hw, hs, hid, hem, -⟩ := gormCreate_ok s _ w s₁ hc
    have hwv : w = { id := s.nextId, name := n, email := e } := by
      rw [hw]; rfl
    exact ⟨hwv, hs, hid, hem⟩

theorem find_append_of_none {p : User → Bool} {l1 l2 : List User}
    (h : ∀ v ∈ l1, p v = false) : (l1 ++ l2).find? p = l2.find? p := by
  induction l1 with
  | nil => rfl
  | cons a t ih =>
    have ha := h a (by simp)
    simp only [List.cons_append, List.find?, ha]
    exact ih (fun v hv => h v (by simp [hv]))

theorem createMany_users (reqs : List (String × String)) :
    ∀ s s' created, createMany s reqs = some (s', created) →
      s'.users = s.users ++ created ∧ created.length = reqs.length := by
  induction reqs with
  | nil =>
    intro s s' created h
    simp only [createMany, Option.some.injEq, Prod.mk.injEq] at h
    obtain ⟨rfl, rfl⟩ := h
    simp
  | cons q rest ih =>
    intro s s' created h
    obtain ⟨n, e⟩ := q
    simp only [createMany] at h
    split at h
    · rename_i u s₁ heq
      rw [Option.map_eq_some'] at h
      obtain ⟨p, hp, hps⟩ := h
      obtain ⟨rfl, rfl⟩ : p.1 = s' ∧ u :: p.2 = created := by
        simpa [Prod.ext_iff] using hps
      obtain ⟨-, hs₁, -, -⟩ := createUser_created s n e u s₁ heq
      obtain ⟨h1, h2⟩ := ih s₁ p.1 p.2 hp
      constructor
      · rw [h1, hs₁]; simp
      · simp [h2]
    · simp at h

theorem firstByParam_of_parse (s : Store) (idStr : String) (i : Int)
    (hp : parseId idStr = some i) : firstByParam s idStr = firstById s i := by
  unfold firstByParam
  rw [hp]

/-! ### Claims -/

/-- Claim C3: for every user created via POST /users with a well-formed
name/email body, an immediately subsequent GET /users/id on the id returned
in the 201 response answers 200 with a body equal field-for-field to the
creation response, and leaves the store unchanged. -/
theorem create_then_get (s : Store) (n e : String) (u : User) (s' : Store)
    (h : createUser s (mkBody n e) = (201, HResp.user u, s'))
    (idStr : String) (hid : parseId idStr = some u.id) :
    getUser s' idStr = (200, HResp.user u, s') := by
  obtain ⟨-, hs', hfresh, -⟩ := createUser_created s n e u s' h
  have hfind : firstById s' u.id = some u := by
    unfold firstById
    rw [hs', find_append_of_none (fun v hv => by
      simpa using hfresh v hv)]
    simp [List.find?]
  unfold getUser
  rw [firstByParam_of_parse s' idStr u.id hid, hfind]

/-- Witness for C3 at the spec's own scenario: Dave is created into the fresh
store and GET /users/1 returns the creation body. -/
theorem create_then_get_witness :
    getUser ⟨[⟨1, "Dave", "dave@example.com"⟩], 2⟩ "1" =
      (200, HResp.user ⟨1, "Dave", "dave@example.com"⟩,
        ⟨[⟨1, "Dave", "dave@example.com"⟩], 2⟩) :=
  create_then_get emptyStore "Dave" "dave@example.com" ⟨1, "Dave", "dave@example.com"⟩
    ⟨[⟨1, "Dave", "dave@example.com"⟩], 2⟩ (by decide) "1" (by decide)

/-- Claim C4: any sequence of successful creates from the empty store makes
GET /users answer 200 with exactly the created records, field for field and
in creation order, with the store left unchanged by the read. -/
theorem getUsers_after_creates (reqs : List (String × String)) (s' : Store)
    (created : List User) (h : createMany emptyStore reqs = some (s', created)) :
    getUsers s' = (200, HResp.users created, s') ∧ created.length = reqs.length := by
  obtain ⟨h1, h2⟩ := createMany_users reqs emptyStore s' created h
  refine ⟨?_, h2⟩
  unfold getUsers
  rw [h1]
  rfl

/-- Witness for C4: two creates, then a list returning both records in
insertion order. -/
theorem getUsers_after_creates_witness :
    getUsers ⟨[⟨1, "Alice", "alice@example.com"⟩, ⟨2, "Bob", "bob@example.com"⟩], 3⟩ =
      (200, HResp.users [⟨1, "Alice", "alice@example.com"⟩, ⟨2, "Bob", "bob@example.com"⟩],
        ⟨[⟨1, "Alice", "alice@example.com"⟩, ⟨2, "Bob", "bob@example.com"⟩], 3⟩) ∧
    ([⟨1, "Alice", "alice@example.com"⟩, ⟨2, "Bob", "bob@example.com"⟩] : List User).length =
      [("Alice", "alice@example.com"), ("Bob", "bob@example.com")].length :=
  getUsers_after_creates [("Alice", "alice@example.com"), ("Bob", "bob@example.com")]
    ⟨[⟨1, "Alice", "alice@example.com"⟩, ⟨2, "Bob", "bob@example.com"⟩], 3⟩
    [⟨1, "Alice", "alice@example.com"⟩, ⟨2, "Bob", "bob@example.com"⟩] (by decide)

/-- Claim C5 counterexample: the malformed, non-integer id string `1=1` is
not treated as not-found — GORM runs it as a raw SQL condition, it matches
every row, and GET answers 200 with the first row of a nonempty table. -/
theorem getUser_malformed_id_200 :
    getUser ⟨[⟨1, "Dave", "dave@example.com"⟩], 2⟩ "1=1" =
      (200, HResp.user ⟨1, "Dave", "dave@example.com"⟩,
        ⟨[⟨1, "Dave", "dave@example.com"⟩], 2⟩) ∧
    (200 : Nat) ≠ 404 := by decide

/-- Claim C5 (amended): whenever the id path parameter is an integer (per
`strconv.Atoi`) matching no stored user, GET /users/id answers exactly 404
with the not-found message (so never 200 and never 500); a non-integer id
string is instead passed to storage as a raw SQL condition and can answer
200 when that condition matches a row. -/
theorem getUser_absent_404 (s : Store) (idStr : String) (i : Int)
    (hp : parseId idStr = some i) (h : ∀ v ∈ s.users, v.id ≠ i) :
    getUser s idStr = (404, HResp.msg "User not found", s) := by
  have hf : firstById s i = none := by
    apply List.find?_eq_none.mpr
    intro v hv
    simpa using h v hv
  unfold getUser
  rw [firstByParam_of_parse s idStr i hp, hf]

/-- Witness for the amended C5: the absent numeric id 2 against a nonempty
store answers 404. -/
theorem getUser_absent_404_witness :
    getUser ⟨[⟨1, "Dave", "dave@example.com"⟩], 2⟩ "2" =
      (404, HResp.msg "User not found", ⟨[⟨1, "Dave", "dave@example.com"⟩], 2⟩) :=
  getUser_absent_404 ⟨[⟨1, "Dave", "dave@example.com"⟩], 2⟩ "2" 2 (by decide) (by decide)

/-- Claim C6: deleting a stored user answers 200 with the confirmation
message (not the record), hard-deletes the row, and a subsequent GET on the
same id answers 404. -/
theorem delete_then_get (s : Store) (idStr : String) (i : Int) (u : User)
    (hp : parseId idStr = some i) (hf : firstById s i = some u) :
    deleteUser s idStr = (200, HResp.msg "User deleted", gormDelete s u) ∧
      (∀ v ∈ (gormDelete s u).users, v.id ≠ i) ∧
      getUser (gormDelete s u) idStr =
        (404, HResp.msg "User not found", gormDelete s u) := by
  have hui : u.id = i := by simpa using List.find?_some hf
  have habsent : ∀ v ∈ (gormDelete s u).users, v.id ≠ i := by
    intro v hv
    have h2 := (List.mem_filter.mp hv).2
    simpa [bne_iff_ne, hui] using h2
  refine ⟨?_, habsent, ?_⟩
  · unfold deleteUser
    rw [firstByParam_of_parse s idStr i hp, hf]
  · unfold getUser
    have hnone : firstById (gormDelete s u) i = none := by
      apply List.find?_eq_none.mpr
      intro v hv
      simpa using habsent v hv
    rw [firstByParam_of_parse (gormDelete s u) idStr i hp, hnone]

/-- Witness for C6: Frank (id 1) is deleted; the row is gone and the
follow-up GET is 404. -/
theorem delete_then_get_witness :
    deleteUser ⟨[⟨1, "Frank", "frank@example.com"⟩], 2⟩ "1" =
      (200, HResp.msg "User deleted",
        gormDelete ⟨[⟨1, "Frank", "frank@example.com"⟩], 2⟩ ⟨1, "Frank", "frank@example.com"⟩) ∧
    getUser (gormDelete ⟨[⟨1, "Frank", "frank@example.com"⟩], 2⟩
        ⟨1, "Frank", "frank@example.com"⟩) "1" =
      (404, HResp.msg "User not found",
        gormDelete ⟨[⟨1, "Frank", "frank@example.com"⟩], 2⟩ ⟨1, "Frank", "frank@example.com"⟩) :=
  ⟨(delete_then_get ⟨[⟨1, "Frank", "frank@example.com"⟩], 2⟩ "1" 1
      ⟨1, "Frank", "frank@example.com"⟩ (by decide) (by decide)).1,
   (delete_then_get ⟨[⟨1, "Frank", "frank@example.com"⟩], 2⟩ "1" 1
      ⟨1, "Frank", "frank@example.com"⟩ (by decide) (by decide)).2.2⟩

/-- Claim C7: after a successful create, a second create carrying the same
email answers 500, leaves the store unchanged, and the store holds exactly
one record with that email. -/
theorem duplicate_email_500 (s : Store) (n1 e n2 : String) (u : User) (s1 : Store)
    (h : createUser s (mkBody n1 e) = (201, HResp.user u, s1)) :
    createUser s1 (mkBody n2 e) = (500, HResp.msg "Failed to create user", s1) ∧
      (s1.users.filter (fun v => v.email == e)).length = 1 := by
  obtain ⟨hu, hs1, -, hem⟩ := createUser_created s n1 e u s1 h
  have hue : u.email = e := by rw [hu]
  constructor
  · rw [createUser_mkBody]
    split
    · rfl
    · rename_i u' s' heq
      obtain ⟨hw, -, -, hem', -⟩ := gormCreate_ok s1 _ u' s' heq
      exfalso
      refine hem' u (by simp [hs1]) ?_
      rw [hue, hw]
      rfl
  · rw [hs1, List.filter_append]
    have hnil : s.users.filter (fun v => v.email == e) = [] := by
      apply List.filter_eq_nil_iff.mpr
      intro v hv
      simpa [hue] using hem v hv
    rw [hnil]
    simp [hue]

/-- Witness for C7: creating a second user with the already-taken email
answers 500 and exactly one stored row carries the email. -/
theorem duplicate_email_500_witness :
    createUser ⟨[⟨1, "A", "dup@example.com"⟩], 2⟩ (mkBody "B" "dup@example.com") =
      (500, HResp.msg "Failed to create user", ⟨[⟨1, "A", "dup@example.com"⟩], 2⟩) ∧
    ((⟨[⟨1, "A", "dup@example.com"⟩], 2⟩ : Store).users.filter
      (fun v => v.email == "dup@example.com")).length = 1 :=
  duplicate_email_500 emptyStore "A" "dup@example.com" "B" ⟨1, "A", "dup@example.com"⟩
    ⟨[⟨1, "A", "dup@example.com"⟩], 2⟩ (by decide)

/-- Claim C8: PUT fetches the target before reading the body — a missing
target answers 404 no matter what the body is (even undecodable), and a 400
can only arise when the target record exists. -/
theorem update_fetch_before_bind (s : Store) (idStr : String) (body : Option UserJSON) :
    (firstByParam s idStr = none →
      updateUser s idStr body = (404, HResp.msg "User not found", s)) ∧
    ((updateUser s idStr body).1 = 400 →
      ∃ u, firstByParam s idStr = some u) := by
  constructor
  · intro h
    unfold updateUser
    rw [h]
  · intro h
    cases hb : firstByParam s idStr with
    | none =>
      unfold updateUser at h
      rw [hb] at h
      simp at h
    | some u => exact ⟨u, rfl⟩

/-- Witness for C8: a PUT on an empty store with an undecodable body answers
404, not 400. -/
theorem update_fetch_before_bind_witness :
    updateUser emptyStore "5" none = (404, HResp.msg "User not found", emptyStore) :=
  (update_fetch_before_bind emptyStore "5" none).1 (by decide)

theorem gormSave_ok_update (s : Store) (w w' : User) (s' : Store) (h0 : ¬(w.id = 0))
    (hrow : (s.users.any (fun v => v.id == w.id)) = true)
    (h : gormSave s w = Except.ok (w', s')) :
    w' = w ∧ s'.users = s.users.map (fun v => if v.id = w.id then w else v) := by
  unfold gormSave at h
  rw [if_neg h0, if_pos hrow] at h
  split at h
  · simp at h
  · simp only [Except.ok.injEq, Prod.mk.injEq] at h
    obtain ⟨rfl, rfl⟩ := h
    exact ⟨rfl, rfl⟩

theorem updateUser_saved (s : Store) (idStr : String) (i : Int) (u : User)
    (jn je : Option String) (u' : User) (s' : Store)
    (hp : parseId idStr = some i) (hf : firstById s i = some u) (hi0 : i ≠ 0)
    (h : updateUser s idStr (some ⟨none, jn, je⟩) = (200, HResp.user u', s')) :
    u' = { id := u.id, name := jn.getD u.name, email := je.getD u.email } ∧
      s'.users = s.users.map (fun v => if v.id = i then u' else v) := by
  have hui : u.id = i := by simpa using List.find?_some hf
  have h' : (match gormSave s
        { id := u.id, name := jn.getD u.name, email := je.getD u.email } with
      | Except.error _ => (500, HResp.msg "Failed to update user", s)
      | Except.ok (u'', s') => (200, HResp.user u'', s'))
      = (200, HResp.user u', s') := by
    rw [← h]
    unfold updateUser
    rw [firstByParam_of_parse s idStr i hp, hf]
    rfl
  cases hs : gormSave s { id := u.id, name := jn.getD u.name, email := je.getD u.email } with
  | error x => rw [hs] at h'; simp at h'
  | ok p =>
    rw [hs] at h'
    obtain ⟨w, s₁⟩ := p
    simp only [Prod.mk.injEq, HResp.user.injEq] at h'
    obtain ⟨-, rfl, rfl⟩ := h'
    obtain ⟨rfl, hs₁⟩ := gormSave_ok_update s _ w s₁ (by simpa [hui] using hi0)
      (List.any_eq_true.mpr ⟨u, List.mem_of_find?_eq_some hf, by simp⟩) hs
    refine ⟨rfl, ?_⟩
    rw [hs₁]
    simp [hui]

/-- Claim C1 counterexample: PUT /users/1 whose body has only a name keeps
the stored email in both the 200 response and the stored row; the omitted
field is not blanked to the empty string. -/
theorem update_omitted_email_not_blanked :
    updateUser ⟨[⟨1, "Alice", "alice@example.com"⟩], 2⟩ "1"
        (some ⟨none, some "Bob", none⟩) =
      (200, HResp.user ⟨1, "Bob", "alice@example.com"⟩,
        ⟨[⟨1, "Bob", "alice@example.com"⟩], 2⟩) ∧
    (⟨1, "Bob", "alice@example.com"⟩ : User).email ≠ "" := by decide

/-- Claim C1 (amended): because the body is decoded into the record fetched
from storage, a PUT is a merge: a field omitted from the JSON body keeps the
stored record's value in the 200 response, and the response record is the
one stored. -/
theorem update_omitted_fields_merge (s : Store) (idStr : String) (i : Int)
    (u : User) (jn je : Option String) (u' : User) (s' : Store)
    (hp : parseId idStr = some i) (hf : firstById s i = some u) (hi0 : i ≠ 0)
    (h : updateUser s idStr (some ⟨none, jn, je⟩) = (200, HResp.user u', s')) :
    (je = none → u'.email = u.email) ∧ (jn = none → u'.name = u.name) ∧
      u' ∈ s'.users := by
  obtain ⟨hu', hs'⟩ := updateUser_saved s idStr i u jn je u' s' hp hf hi0 h
  have hui : u.id = i := by simpa using List.find?_some hf
  refine ⟨?_, ?_, ?_⟩
  · intro hje
    rw [hu', hje]
    rfl
  · intro hjn
    rw [hu', hjn]
    rfl
  · rw [hs']
    exact List.mem_map.mpr ⟨u, List.mem_of_find?_eq_some hf, by simp [hui]⟩

/-- Witness for the amended C1: updating Alice with a name-only body keeps
her stored email and stores the merged record. -/
theorem update_omitted_fields_merge_witness :
    (⟨1, "Bob", "alice@example.com"⟩ : User).email =
      (⟨1, "Alice", "alice@example.com"⟩ : User).email ∧
    (⟨1, "Bob", "alice@example.com"⟩ : User) ∈
      (⟨[⟨1, "Bob", "alice@example.com"⟩], 2⟩ : Store).users :=
  ⟨(update_omitted_fields_merge ⟨[⟨1, "Alice", "alice@example.com"⟩], 2⟩ "1" 1
      ⟨1, "Alice", "alice@example.com"⟩ (some "Bob") none ⟨1, "Bob", "alice@example.com"⟩
      ⟨[⟨1, "Bob", "alice@example.com"⟩], 2⟩ (by decide) (by decide) (by decide)
      (by decide)).1 rfl,
   (update_omitted_fields_merge ⟨[⟨1, "Alice", "alice@example.com"⟩], 2⟩ "1" 1
      ⟨1, "Alice", "alice@example.com"⟩ (some "Bob") none ⟨1, "Bob", "alice@example.com"⟩
      ⟨[⟨1, "Bob", "alice@example.com"⟩], 2⟩ (by decide) (by decide) (by decide)
      (by decide)).2.2⟩

/-- Claim C9 counterexample: a PUT /users/1 whose body also carries id 2
succeeds with 200 but answers id 2, not the path id 1, and rewrites the row
with id 2 while leaving row 1 untouched. -/
theorem update_body_id_overrides_path_id :
    updateUser ⟨[⟨1, "A", "a@x.com"⟩, ⟨2, "B", "b@x.com"⟩], 3⟩ "1"
        (some ⟨some 2, some "C", some "c@x.com"⟩) =
      (200, HResp.user ⟨2, "C", "c@x.com"⟩,
        ⟨[⟨1, "A", "a@x.com"⟩, ⟨2, "C", "c@x.com"⟩], 3⟩) ∧
    (⟨2, "C", "c@x.com"⟩ : User).id ≠ 1 := by decide

/-- Claim C9 (amended): when the body does not carry an id field, a
successful PUT on a stored user with nonzero id N keeps id N in the 200
response and rewrites exactly the row with id N, leaving all other rows
unchanged. -/
theorem update_without_body_id_preserves_id (s : Store) (idStr : String) (i : Int)
    (u : User) (jn je : Option String) (u' : User) (s' : Store)
    (hp : parseId idStr = some i) (hf : firstById s i = some u) (hi0 : i ≠ 0)
    (h : updateUser s idStr (some ⟨none, jn, je⟩) = (200, HResp.user u', s')) :
    u'.id = i ∧ s'.users = s.users.map (fun v => if v.id = i then u' else v) := by
  obtain ⟨hu', hs'⟩ := updateUser_saved s idStr i u jn je u' s' hp hf hi0 h
  have hui : u.id = i := by simpa using List.find?_some hf
  refine ⟨?_, hs'⟩
  rw [hu']
  exact hui

/-- Witness for the amended C9: updating Eve by id 1 with a name/email body
keeps id 1 and rewrites exactly her row. -/
theorem update_without_body_id_preserves_id_witness :
    (⟨1, "Eve Updated", "eve.updated@example.com"⟩ : User).id = 1 ∧
    (⟨[⟨1, "Eve Updated", "eve.updated@example.com"⟩], 2⟩ : Store).users =
      (⟨[⟨1, "Eve", "eve@example.com"⟩], 2⟩ : Store).users.map
        (fun v => if v.id = 1 then ⟨1, "Eve Updated", "eve.updated@example.com"⟩ else v) :=
  update_without_body_id_preserves_id ⟨[⟨1, "Eve", "eve@example.com"⟩], 2⟩ "1" 1
    ⟨1, "Eve", "eve@example.com"⟩ (some "Eve Updated") (some "eve.updated@example.com")
    ⟨1, "Eve Updated", "eve.updated@example.com"⟩
    ⟨[⟨1, "Eve Updated", "eve.updated@example.com"⟩], 2⟩
    (by decide) (by decide) (by decide) (by decide)

/-- Claim C2 counterexample: POST /users with body id 42 against the fresh
store creates the row with id 42, not the auto-increment value 1 that the
sequence would assign. -/
theorem create_body_id_used :
    createUser emptyStore (some ⟨some 42, some "A", some "a@x.com"⟩) =
      (201, HResp.user ⟨42, "A", "a@x.com"⟩, ⟨[⟨42, "A", "a@x.com"⟩], 1⟩) ∧
    (⟨42, "A", "a@x.com"⟩ : User).id ≠ emptyStore.nextId := by decide

/-- Claim C2 (amended): the created record's id is system-assigned from the
sequence exactly when the body id is absent or zero; a nonzero body id is
stored as given. -/
theorem create_id_assignment (s : Store) (j : UserJSON) (u : User) (s' : Store)
    (h : createUser s (some j) = (201, HResp.user u, s')) :
    (j.id.getD 0 = 0 → u.id = s.nextId) ∧
      (∀ k, j.id = some k → ¬(k = 0) → u.id = k) := by
  have h' : (match gormCreate s
        { id := j.id.getD 0, name := j.name.getD "", email := j.email.getD "" } with
      | Except.error _ => (500, HResp.msg "Failed to create user", s)
      | Except.ok (u', s') => (201, HResp.user u', s')) = (201, HResp.user u, s') := by
    rw [← h]
    rfl
  cases hc : gormCreate s
      { id := j.id.getD 0, name := j.name.getD "", email := j.email.getD "" } with
  | error x => rw [hc] at h'; simp at h'
  | ok p =>
    rw [hc] at h'
    obtain ⟨w, s₁⟩ := p
    simp only [Prod.mk.injEq, HResp.user.injEq] at h'
    obtain ⟨-, rfl, rfl⟩ := h'
    obtain ⟨hw, -, -, -, -⟩ := gormCreate_ok s _ w s₁ hc
    constructor
    · intro h0
      rw [hw]
      unfold assignId
      rw [if_pos h0]
    · intro k hk hk0
      rw [hw]
      unfold assignId
      rw [if_neg (show ¬_ from by simpa [hk] using hk0)]
      simp [hk]

/-- Witness for the amended C2: a body without id gets the sequence value 1;
a body with id 42 keeps 42. -/
theorem create_id_assignment_witness :
    (⟨1, "A", "a@x.com"⟩ : User).id = emptyStore.nextId ∧
    (⟨42, "B", "b@x.com"⟩ : User).id = 42 :=
  ⟨(create_id_assignment emptyStore ⟨none, some "A", some "a@x.com"⟩ ⟨1, "A", "a@x.com"⟩
      ⟨[⟨1, "A", "a@x.com"⟩], 2⟩ (by decide)).1 (by decide),
   (create_id_assignment emptyStore ⟨some 42, some "B", some "b@x.com"⟩ ⟨42, "B", "b@x.com"⟩
      ⟨[⟨42, "B", "b@x.com"⟩], 1⟩ (by decide)).2 42 (by decide) (by decide)⟩

/-- Claim C10: the two read handlers never change the store, and the create,
update and delete handlers return the incoming store unchanged on every
non-success response. -/
theorem error_responses_leave_store (s : Store) (idStr : String) (body : Option UserJSON) :
    (getUsers s).2.2 = s ∧ (getUser s idStr).2.2 = s ∧
    ((createUser s body).1 ≠ 201 → (createUser s body).2.2 = s) ∧
    ((updateUser s idStr body).1 ≠ 200 → (updateUser s idStr body).2.2 = s) ∧
    ((deleteUser s idStr).1 ≠ 200 → (deleteUser s idStr).2.2 = s) := by
  refine ⟨rfl, ?_, ?_, ?_, ?_⟩
  · unfold getUser
    split <;> rfl
  · unfold createUser
    split
    · intro _; rfl
    split
    · intro _; rfl
    · intro h; exact absurd rfl h
  · unfold updateUser
    split
    · intro _; rfl
    split
    · intro _; rfl
    split
    · intro _; rfl
    · intro h; exact absurd rfl h
  · unfold deleteUser
    split
    · intro _; rfl
    · intro h; exact absurd rfl h

/-- Witness for C10: a create with an undecodable body and an update on a
missing id both leave the empty store untouched. -/
theorem error_responses_leave_store_witness :
    (createUser emptyStore none).2.2 = emptyStore ∧
    (updateUser emptyStore "zz" none).2.2 = emptyStore :=
  ⟨(error_responses_leave_store emptyStore "zz" none).2.2.1 (by decide),
   (error_responses_leave_store emptyStore "zz" none).2.2.2.1 (by decide)⟩
